import Mathlib

/-!
Verification development for the catapult-rest peer-verification core and
its lockHash plugin.

Part 1 models the challenge-response verification state machine
(`verifyPeer.createServerVerifier` / `handlePacket`).  The implementation
module `src/auth/verifyPeer.js` is not among the sources (only its test
suite is), so the machine is modelled from the specification: states
`AwaitingServerChallenge`, `AwaitingClientResponse(issuedChallenge)`,
`Verified`, `Failed`; a one-shot result notification guarded by the
machine itself; one outbound write per transition that produces one.
Where the test suite constrains behaviour (packet type of the written
response, sizes, idempotent terminal states) the model follows the tests.

Part 2 embeds the lockHash transaction codec registered by
`lockHashPlugin.registerCodecs` and the query built by
`LockHashDb.hashLocksByAccounts`, both taken directly from the sources.

Bytes are modelled as natural numbers, byte buffers as `List Nat`.
-/

/-- A signing key pair owned by the local node: 32-byte public key and the
matching private key.  Used only to sign, never mutated. -/
structure KeyPair where
  publicKey : List Nat
  privateKey : List Nat
deriving DecidableEq

/-- Modelled from the spec: the external collaborators of the state machine
(the signature primitive `sign`/`verify`, the `generateRandomBytes`
challenge source) together with the construction-time parameters of
`createServerVerifier` (local key pair, expected remote public key).
The random source is threaded explicitly, as the spec's design notes
direct, so that its draws are visible to the model. -/
structure Env where
  keyPair : KeyPair
  remotePublicKey : List Nat
  sign : List Nat → List Nat → List Nat
  verify : List Nat → List Nat → List Nat → Bool
  randomBytes : Nat → List Nat

/-- A parsed packet `{type, size, payload}` as delivered to the handler.
`payload` is an `Option` because the tests feed packets that lack a
payload field entirely (e.g. `{ type: 3, size: 16 }`). -/
structure Packet where
  type : Nat
  size : Nat
  payload : Option (List Nat)
deriving DecidableEq

/-- Modelled from the spec: the numeric packet-type enum (the module
`src/packet/PacketType` is not among the sources).  Only distinctness of
the two auth types matters to the machine. -/
def PacketType.serverChallenge : Nat := 1

/-- Modelled from the spec: the client challenge response packet type,
distinct from `PacketType.serverChallenge`. -/
def PacketType.clientChallengeResponse : Nat := 2

/-- The packet type carried by the locally produced Server Challenge
Response.  The test suite asserts that the written response's type equals
`PacketType.serverChallenge` (mosaic_spec.js line 248:
`expect(response.type).to.equal(PacketType.serverChallenge)`), so the
spec's name `serverChallengeResponse` denotes the same numeric value as
`serverChallenge`; the machine never receives this type inbound. -/
def PacketType.serverChallengeResponse : Nat := PacketType.serverChallenge

/-- A challenge is 64 bytes. -/
def challengeSize : Nat := 64

/-- A signature is 64 bytes. -/
def signatureSize : Nat := 64

/-- A public key is 32 bytes. -/
def publicKeySize : Nat := 32

/-- The fixed framed-packet header: 4-byte size plus 4-byte type. -/
def packetHeaderSize : Nat := 8

/-- The three terminal verification outcomes. -/
inductive VerifyResult
  | success
  | malformedData
  | failedChallenge
deriving DecidableEq

/-- Modelled from the spec: the handshake states, with the issued local
challenge carried only in the state that needs it. -/
inductive HandshakeState
  | awaitingServerChallenge
  | awaitingClientResponse (issuedChallenge : List Nat)
  | verified
  | failed
deriving DecidableEq

/-- The observable state of one handshake instance: the machine state, the
one-shot stored result, the packets written to the socket (in order) and
the result-callback invocations (in order). -/
structure Handshake where
  state : HandshakeState
  result : Option VerifyResult
  written : List Packet
  notifications : List VerifyResult
deriving DecidableEq

/-- A fresh, non-terminal handshake as produced by `createServerVerifier`. -/
def initialHandshake : Handshake :=
  { state := HandshakeState.awaitingServerChallenge
    result := none
    written := []
    notifications := [] }

/-- Modelled from the spec: finalizing a result.  The "already resolved"
guard is owned by the machine itself: the stored result is written and the
callback invoked only when no result has been produced yet. -/
def raiseVerifyResult (hs : Handshake) (r : VerifyResult) (s : HandshakeState) : Handshake :=
  match hs.result with
  | some _ => { hs with state := s }
  | none =>
      { hs with
          state := s
          result := some r
          notifications := hs.notifications ++ [r] }

/-- The Server Challenge Response assembled for a received challenge:
payload = signature over the received challenge, then a fresh local
challenge, then the local public key; framed size = header + payload. -/
def serverChallengeResponsePacket (env : Env) (receivedChallenge : List Nat) : Packet :=
  let signature := env.sign env.keyPair.privateKey receivedChallenge
  let newChallenge := env.randomBytes challengeSize
  let payload := signature ++ newChallenge ++ env.keyPair.publicKey
  { type := PacketType.serverChallengeResponse
    size := packetHeaderSize + payload.length
    payload := some payload }

/-- Modelled from the spec: `handlePacket`, the sole mutating entry point
of the verification state machine (`src/auth/verifyPeer.js` is not among
the sources).  In `awaitingServerChallenge` a well-formed Server
Challenge Request produces the one outbound write and moves to
`awaitingClientResponse`; anything else finalizes `malformedData`.  In
`awaitingClientResponse` a structurally valid Client Challenge Response
finalizes `success` or `failedChallenge` according to signature
verification against the expected remote public key and the issued
challenge; anything else finalizes `malformedData`.  Terminal states
ignore every packet. -/
def handlePacket (env : Env) (hs : Handshake) (p : Packet) : Handshake :=
  match hs.state with
  | HandshakeState.awaitingServerChallenge =>
      if p.type = PacketType.serverChallenge ∧ (p.payload.getD []).length = challengeSize then
        { hs with
            state := HandshakeState.awaitingClientResponse (env.randomBytes challengeSize)
            written := hs.written ++ [serverChallengeResponsePacket env (p.payload.getD [])] }
      else
        raiseVerifyResult hs VerifyResult.malformedData HandshakeState.failed
  | HandshakeState.awaitingClientResponse issuedChallenge =>
      if p.type = PacketType.clientChallengeResponse ∧ (p.payload.getD []).length = signatureSize then
        if env.verify env.remotePublicKey issuedChallenge (p.payload.getD []) then
          raiseVerifyResult hs VerifyResult.success HandshakeState.verified
        else
          raiseVerifyResult hs VerifyResult.failedChallenge HandshakeState.failed
      else
        raiseVerifyResult hs VerifyResult.malformedData HandshakeState.failed
  | HandshakeState.verified => hs
  | HandshakeState.failed => hs

/-- Feeding a packet sequence, in arrival order, to a fresh handshake. -/
def run (env : Env) (ps : List Packet) : Handshake :=
  ps.foldl (handlePacket env) initialHandshake

/-- The challenge segment embedded in a Server Challenge Response payload,
as the test helper `parseServerChallengeResponse` extracts it: the 64
bytes following the 64-byte signature. -/
def responseChallenge (p : Packet) : List Nat :=
  ((p.payload.getD []).drop signatureSize).take challengeSize

/-! ### Part 2: lockHash transaction codec (`lockHashPlugin.registerCodecs`) -/

/-- Models `sizes.hash256` from the SDK's `modelBinary/sizes` module (not
among the sources): a 256-bit hash is 32 bytes. -/
def sizes_hash256 : Nat := 32

/-- A hash-lock transaction as the registered codec reads it: `mosaic` and
`duration` are uint64 values in the SDK's `[lower32, upper32]`
representation, `hash` is a byte buffer. -/
structure HashLockTransaction where
  mosaic : Nat × Nat
  duration : Nat × Nat
  hash : List Nat
deriving DecidableEq

/-- `serializer.writeUint32`: four little-endian bytes. -/
def writeUint32LE (v : Nat) : List Nat :=
  [v % 256, v / 256 % 256, v / 65536 % 256, v / 16777216 % 256]

/-- `serializer.writeUint64`: the lower then the upper 32-bit word, each as
four little-endian bytes. -/
def writeUint64LE (v : Nat × Nat) : List Nat :=
  writeUint32LE v.1 ++ writeUint32LE v.2

/-- Recompose a 32-bit value from four little-endian bytes. -/
def readUint32LE (b0 b1 b2 b3 : Nat) : Nat :=
  b0 + 256 * b1 + 65536 * b2 + 16777216 * b3

/-- `parser.uint64()`: consume eight bytes, yielding the `[lower, upper]`
pair; `none` when the stream is too short. -/
def parseUint64 : List Nat → Option ((Nat × Nat) × List Nat)
  | b0 :: b1 :: b2 :: b3 :: b4 :: b5 :: b6 :: b7 :: rest =>
      some ((readUint32LE b0 b1 b2 b3, readUint32LE b4 b5 b6 b7), rest)
  | _ => none

/-- `parser.buffer(n)`: consume exactly `n` bytes; `none` when the stream
is too short. -/
def parseBuffer (n : Nat) (bs : List Nat) : Option (List Nat × List Nat) :=
  if n ≤ bs.length then some (bs.take n, bs.drop n) else none

/-- The hashLock `serialize` from `registerCodecs`: writes `mosaic`,
`duration`, then the hash buffer. -/
def hashLockSerialize (t : HashLockTransaction) : List Nat :=
  writeUint64LE t.mosaic ++ writeUint64LE t.duration ++ t.hash

/-- The hashLock `deserialize` from `registerCodecs`: reads `mosaic`,
`duration`, then `hash256` bytes of hash, returning the transaction and
the unconsumed remainder of the stream. -/
def hashLockDeserialize (bs : List Nat) : Option (HashLockTransaction × List Nat) := do
  let (mosaic, bs1) ← parseUint64 bs
  let (duration, bs2) ← parseUint64 bs1
  let (hash, bs3) ← parseBuffer sizes_hash256 bs2
  return ({ mosaic := mosaic, duration := duration, hash := hash }, bs3)

/-! ### Part 2b: `LockHashDb.hashLocksByAccounts` -/

/-- Models the rest server's `AccountType` module (required by
`LockHashDb.js` but not among the sources): the two kinds of account
identifier. -/
inductive AccountType
  | publicKey
  | address
deriving DecidableEq

/-- `Buffer.from(accountId)`: a byte-for-byte copy of the account id. -/
def bufferFrom (accountId : List Nat) : List Nat := accountId

/-- One `{ [fieldName]: { $in: buffers } }` clause of a Mongo filter. -/
structure MongoInCondition where
  fieldName : String
  values : List (List Nat)
deriving DecidableEq

/-- The paged query handed to `catapultDb.queryPagedDocuments`: collection
name, the `$and` clause list, and the paging arguments. -/
structure PagedQuery where
  collectionName : String
  andConditions : List MongoInCondition
  pagingId : String
  pageSize : Nat
deriving DecidableEq

/-- `LockHashDb.hashLocksByAccounts`: maps the account ids to buffers,
selects the filter field by account id type (`lock.account` for public
keys, `lock.accountAddress` otherwise) and queries `hashLockInfos` with
the single `$in` condition. -/
def hashLocksByAccounts (type : AccountType) (accountIds : List (List Nat))
    (id : String) (pageSize : Nat) : PagedQuery :=
  let buffers := accountIds.map bufferFrom
  let fieldName := if AccountType.publicKey = type then "lock.account" else "lock.accountAddress"
  { collectionName := "hashLockInfos"
    andConditions := [{ fieldName := fieldName, values := buffers }]
    pagingId := id
    pageSize := pageSize }

/-! ### Concrete instances used by the witnesses -/

/-- A concrete 32-byte key used as both halves of the local key pair. -/
def toyKeyBytes : List Nat := List.replicate 32 7

/-- A concrete 32-byte expected remote public key. -/
def toyRemoteKey : List Nat := List.replicate 32 9

/-- A toy deterministic signature scheme in which a key signs for itself:
the signature is 64 copies of the sum of key and message bytes. -/
def toySign (key msg : List Nat) : List Nat :=
  List.replicate signatureSize (key.foldl (fun a b => a + b) 0 + msg.foldl (fun a b => a + b) 0)

/-- A concrete environment: toy signature scheme, deterministic 64-byte
challenge source drawing `5`-bytes. -/
def toyEnv : Env :=
  { keyPair := { publicKey := toyKeyBytes, privateKey := toyKeyBytes }
    remotePublicKey := toyRemoteKey
    sign := toySign
    verify := fun pub msg sig => decide (sig = toySign pub msg)
    randomBytes := fun n => List.replicate n 5 }

/-- A concrete well-formed Server Challenge Request. -/
def toyServerChallengeRequest : Packet :=
  { type := PacketType.serverChallenge
    size := 72
    payload := some (List.replicate 64 1) }

/-- A concrete Client Challenge Response whose signature is the remote
key's toy signature over the locally issued challenge
(`toyEnv.randomBytes 64`). -/
def toyClientChallengeResponse : Packet :=
  { type := PacketType.clientChallengeResponse
    size := 72
    payload := some (toySign toyRemoteKey (List.replicate 64 5)) }

/-- A concrete non-auth packet lacking a payload field, as fed by the
tests (`{ type: 3, size: 16 }`). -/
def toyNonAuthPacket : Packet :=
  { type := 3
    size := 16
    payload := none }

/-- A concrete handshake that has issued the challenge `5`-bytes and
awaits the client response. -/
def toyAwaitingClientHandshake : Handshake :=
  { state := HandshakeState.awaitingClientResponse (List.replicate 64 5)
    result := none
    written := [serverChallengeResponsePacket toyEnv (List.replicate 64 1)]
    notifications := [] }

/-- A concrete structurally valid Client Challenge Response whose first
signature byte is corrupted, so it no longer verifies. -/
def toyCorruptedClientResponse : Packet :=
  { type := PacketType.clientChallengeResponse
    size := 72
    payload := some (255 :: List.replicate 63 608) }

/-- The one-shot discipline: the callback log always equals the stored
result viewed as a list, so it never exceeds one invocation. -/
def oneShot (hs : Handshake) : Prop :=
  hs.notifications = hs.result.toList

/-- A stored result forces a terminal machine state. -/
def resultTerminal (hs : Handshake) : Prop :=
  hs.result.isSome = true →
    hs.state = HandshakeState.verified ∨ hs.state = HandshakeState.failed

/-! ### Structural lemmas about the state machine -/

theorem handlePacket_terminal (env : Env) (hs : Handshake) (p : Packet)
    (h : hs.state = HandshakeState.verified ∨ hs.state = HandshakeState.failed) :
    handlePacket env hs p = hs := by
  rcases h with h | h <;> simp [handlePacket, h]

theorem foldl_terminal (env : Env) (ps : List Packet) (hs : Handshake)
    (h : hs.state = HandshakeState.verified ∨ hs.state = HandshakeState.failed) :
    ps.foldl (handlePacket env) hs = hs := by
  induction ps with
  | nil => rfl
  | cons p ps ih => rw [List.foldl_cons, handlePacket_terminal env hs p h]; exact ih

theorem raiseVerifyResult_none (hs : Handshake) (r : VerifyResult) (s : HandshakeState)
    (h : hs.result = none) :
    raiseVerifyResult hs r s =
      { hs with state := s, result := some r, notifications := hs.notifications ++ [r] } := by
  simp [raiseVerifyResult, h]

theorem handlePacket_request_step (env : Env) (hs : Handshake) (p : Packet)
    (hstate : hs.state = HandshakeState.awaitingServerChallenge)
    (ht : p.type = PacketType.serverChallenge)
    (hp : (p.payload.getD []).length = challengeSize) :
    handlePacket env hs p =
      { hs with
          state := HandshakeState.awaitingClientResponse (env.randomBytes challengeSize)
          written := hs.written ++ [serverChallengeResponsePacket env (p.payload.getD [])] } := by
  simp [handlePacket, hstate, ht, hp]

theorem handlePacket_request_reject (env : Env) (hs : Handshake) (p : Packet)
    (hstate : hs.state = HandshakeState.awaitingServerChallenge)
    (ht : ¬(p.type = PacketType.serverChallenge ∧ (p.payload.getD []).length = challengeSize)) :
    handlePacket env hs p =
      raiseVerifyResult hs VerifyResult.malformedData HandshakeState.failed := by
  simp only [handlePacket, hstate]
  rw [if_neg ht]

theorem handlePacket_response_step (env : Env) (hs : Handshake) (p : Packet) (c : List Nat)
    (hstate : hs.state = HandshakeState.awaitingClientResponse c)
    (ht : p.type = PacketType.clientChallengeResponse)
    (hp : (p.payload.getD []).length = signatureSize) :
    handlePacket env hs p =
      if env.verify env.remotePublicKey c (p.payload.getD [])
      then raiseVerifyResult hs VerifyResult.success HandshakeState.verified
      else raiseVerifyResult hs VerifyResult.failedChallenge HandshakeState.failed := by
  simp [handlePacket, hstate, ht, hp]

theorem handlePacket_response_reject (env : Env) (hs : Handshake) (p : Packet) (c : List Nat)
    (hstate : hs.state = HandshakeState.awaitingClientResponse c)
    (ht : ¬(p.type = PacketType.clientChallengeResponse ∧
            (p.payload.getD []).length = signatureSize)) :
    handlePacket env hs p =
      raiseVerifyResult hs VerifyResult.malformedData HandshakeState.failed := by
  simp only [handlePacket, hstate]
  rw [if_neg ht]

theorem inv_step (env : Env) (hs : Handshake) (p : Packet)
    (h1 : oneShot hs) (h2 : resultTerminal hs) :
    oneShot (handlePacket env hs p) ∧ resultTerminal (handlePacket env hs p) := by
  unfold oneShot resultTerminal at *
  cases hstate : hs.state with
  | awaitingServerChallenge =>
      by_cases hc : p.type = PacketType.serverChallenge ∧
        (p.payload.getD []).length = challengeSize
      · rw [handlePacket_request_step env hs p hstate hc.1 hc.2]
        refine ⟨h1, ?_⟩
        intro hsome
        rcases h2 hsome with h | h <;> rw [hstate] at h <;> cases h
      · rw [handlePacket_request_reject env hs p hstate hc]
        cases hres : hs.result with
        | some r => exact ⟨by simpa [raiseVerifyResult, hres] using h1, by simp [raiseVerifyResult, hres]⟩
        | none => exact ⟨by simp [raiseVerifyResult, hres, h1, hres ▸ h1], by simp [raiseVerifyResult, hres]⟩
  | awaitingClientResponse c =>
      by_cases hc : p.type = PacketType.clientChallengeResponse ∧
        (p.payload.getD []).length = signatureSize
      · rw [handlePacket_response_step env hs p c hstate hc.1 hc.2]
        cases hres : hs.result with
        | some r =>
            constructor
            · split <;> simpa [raiseVerifyResult, hres] using h1
            · split <;> simp [raiseVerifyResult, hres]
        | none =>
            constructor
            · split <;> simp [raiseVerifyResult, hres, hres ▸ h1]
            · split <;> simp [raiseVerifyResult, hres]
      · rw [handlePacket_response_reject env hs p c hstate hc]
        cases hres : hs.result with
        | some r => exact ⟨by simpa [raiseVerifyResult, hres] using h1, by simp [raiseVerifyResult, hres]⟩
        | none => exact ⟨by simp [raiseVerifyResult, hres, hres ▸ h1], by simp [raiseVerifyResult, hres]⟩
  | verified => rw [handlePacket_terminal env hs p (Or.inl hstate)]; exact ⟨h1, h2⟩
  | failed => rw [handlePacket_terminal env hs p (Or.inr hstate)]; exact ⟨h1, h2⟩

theorem inv_foldl (env : Env) (ps : List Packet) (hs : Handshake)
    (h1 : oneShot hs) (h2 : resultTerminal hs) :
    oneShot (ps.foldl (handlePacket env) hs) ∧
      resultTerminal (ps.foldl (handlePacket env) hs) := by
  induction ps generalizing hs with
  | nil => exact ⟨h1, h2⟩
  | cons p ps ih =>
      obtain ⟨j1, j2⟩ := inv_step env hs p h1 h2
      rw [List.foldl_cons]
      exact ih _ j1 j2

theorem inv_run (env : Env) (ps : List Packet) :
    oneShot (run env ps) ∧ resultTerminal (run env ps) := by
  unfold run
  exact inv_foldl env ps initialHandshake rfl (by intro h; cases h)

/-! ### Claim theorems -/

/-- C1: for every handshake instance and packet sequence, the verify
result callback fires at most once ever; and once a terminal result is
stored, feeding any further packets leaves the whole observable handshake
(stored result, callback log, written packets) unchanged. -/
theorem verify_result_fires_at_most_once (env : Env) (ps qs : List Packet) :
    (run env ps).notifications.length ≤ 1 ∧
      ((run env ps).result.isSome = true → run env (ps ++ qs) = run env ps) := by
  obtain ⟨h1, h2⟩ := inv_run env ps
  constructor
  · rw [h1]
    cases (run env ps).result <;> simp
  · intro hsome
    have hterm := h2 hsome
    show (ps ++ qs).foldl (handlePacket env) initialHandshake = run env ps
    rw [List.foldl_append]
    exact foldl_terminal env qs (run env ps) hterm

/-- C1 witness: after a non-auth first packet the result is terminal and a
further packet changes nothing. -/
theorem verify_result_fires_at_most_once_witness :
    (run toyEnv [toyNonAuthPacket]).notifications.length ≤ 1 ∧
      run toyEnv ([toyNonAuthPacket] ++ [toyNonAuthPacket]) = run toyEnv [toyNonAuthPacket] := by
  have h := verify_result_fires_at_most_once toyEnv [toyNonAuthPacket] [toyNonAuthPacket]
  exact ⟨h.1, h.2 (by decide)⟩

/-- C2: a well-formed Server Challenge Request followed by a Client
Challenge Response whose signature verifies (under the expected remote
public key) over the locally issued challenge yields result `success`,
with exactly the one Server Challenge Response written and nothing else,
whatever packets follow. -/
theorem valid_handshake_succeeds (env : Env) (p1 p2 : Packet) (ps : List Packet)
    (h1t : p1.type = PacketType.serverChallenge)
    (h1p : (p1.payload.getD []).length = challengeSize)
    (h2t : p2.type = PacketType.clientChallengeResponse)
    (h2p : (p2.payload.getD []).length = signatureSize)
    (hv : env.verify env.remotePublicKey (env.randomBytes challengeSize)
            (p2.payload.getD []) = true) :
    (run env (p1 :: p2 :: ps)).result = some VerifyResult.success ∧
      (run env (p1 :: p2 :: ps)).written =
        [serverChallengeResponsePacket env (p1.payload.getD [])] := by
  show ((p1 :: p2 :: ps).foldl (handlePacket env) initialHandshake).result = _ ∧
    ((p1 :: p2 :: ps).foldl (handlePacket env) initialHandshake).written = _
  rw [List.foldl_cons, List.foldl_cons,
    handlePacket_request_step env initialHandshake p1 rfl h1t h1p]
  rw [handlePacket_response_step env _ p2 (env.randomBytes challengeSize) rfl h2t h2p, hv]
  rw [if_pos rfl, raiseVerifyResult_none _ _ _ rfl]
  rw [foldl_terminal env ps _ (Or.inl rfl)]
  simp [initialHandshake]

/-- C2 witness: the toy valid handshake succeeds with exactly the one
response written. -/
theorem valid_handshake_succeeds_witness :
    (run toyEnv [toyServerChallengeRequest, toyClientChallengeResponse]).result =
        some VerifyResult.success ∧
      (run toyEnv [toyServerChallengeRequest, toyClientChallengeResponse]).written =
        [serverChallengeResponsePacket toyEnv (List.replicate 64 1)] :=
  valid_handshake_succeeds toyEnv toyServerChallengeRequest toyClientChallengeResponse []
    (by decide) (by decide) (by decide) (by decide) (by decide)

/-- C3: in `awaitingServerChallenge`, a Server Challenge Request makes the
machine write exactly one packet — the Server Challenge Response, of type
`serverChallengeResponse`, framed size 168 when the primitive sizes are
as specified, with payload signature ‖ fresh challenge ‖ local public key
— move to `awaitingClientResponse` with that fresh challenge, and leave
the result and the callback log untouched; when the signature primitive
is sound for the local key pair, the emitted signature verifies under the
local public key. -/
theorem server_challenge_request_response (env : Env) (hs : Handshake) (p : Packet)
    (hstate : hs.state = HandshakeState.awaitingServerChallenge)
    (ht : p.type = PacketType.serverChallenge)
    (hp : (p.payload.getD []).length = challengeSize)
    (hsig : (env.sign env.keyPair.privateKey (p.payload.getD [])).length = signatureSize)
    (hrand : (env.randomBytes challengeSize).length = challengeSize)
    (hpub : env.keyPair.publicKey.length = publicKeySize)
    (hsound : env.verify env.keyPair.publicKey (p.payload.getD [])
        (env.sign env.keyPair.privateKey (p.payload.getD [])) = true) :
    handlePacket env hs p =
        { hs with
            state := HandshakeState.awaitingClientResponse (env.randomBytes challengeSize)
            written := hs.written ++ [serverChallengeResponsePacket env (p.payload.getD [])] } ∧
      (serverChallengeResponsePacket env (p.payload.getD [])).type =
        PacketType.serverChallengeResponse ∧
      (serverChallengeResponsePacket env (p.payload.getD [])).size = 168 ∧
      (serverChallengeResponsePacket env (p.payload.getD [])).payload =
        some (env.sign env.keyPair.privateKey (p.payload.getD []) ++
          env.randomBytes challengeSize ++ env.keyPair.publicKey) ∧
      env.verify env.keyPair.publicKey (p.payload.getD [])
        (env.sign env.keyPair.privateKey (p.payload.getD [])) = true := by
  refine ⟨handlePacket_request_step env hs p hstate ht hp, rfl, ?_, by
    simp [serverChallengeResponsePacket], hsound⟩
  have hrand' : (env.randomBytes 64).length = 64 := hrand
  simp [serverChallengeResponsePacket, packetHeaderSize, hsig, hrand', hpub,
    signatureSize, challengeSize, publicKeySize]

/-- C3 witness: the concrete first transition of the toy handshake. -/
theorem server_challenge_request_response_witness :
    handlePacket toyEnv initialHandshake toyServerChallengeRequest =
        { initialHandshake with
            state := HandshakeState.awaitingClientResponse (toyEnv.randomBytes challengeSize)
            written := initialHandshake.written ++
              [serverChallengeResponsePacket toyEnv (toyServerChallengeRequest.payload.getD [])] } ∧
      (serverChallengeResponsePacket toyEnv (toyServerChallengeRequest.payload.getD [])).type =
        PacketType.serverChallengeResponse ∧
      (serverChallengeResponsePacket toyEnv (toyServerChallengeRequest.payload.getD [])).size = 168 ∧
      (serverChallengeResponsePacket toyEnv (toyServerChallengeRequest.payload.getD [])).payload =
        some (toyEnv.sign toyEnv.keyPair.privateKey (toyServerChallengeRequest.payload.getD []) ++
          toyEnv.randomBytes challengeSize ++ toyEnv.keyPair.publicKey) ∧
      toyEnv.verify toyEnv.keyPair.publicKey (toyServerChallengeRequest.payload.getD [])
        (toyEnv.sign toyEnv.keyPair.privateKey (toyServerChallengeRequest.payload.getD [])) = true :=
  server_challenge_request_response toyEnv initialHandshake toyServerChallengeRequest
    rfl (by decide) (by decide) (by decide) (by decide) (by decide) (by decide)

/-- C4: whenever the first packet fed to the handler is not a Server
Challenge Request, the handshake's result is `malformedData` and nothing
is ever written to the socket, whatever packets follow. -/
theorem first_packet_not_request_rejected (env : Env) (p : Packet) (ps : List Packet)
    (h : p.type ≠ PacketType.serverChallenge) :
    (run env (p :: ps)).result = some VerifyResult.malformedData ∧
      (run env (p :: ps)).written = [] := by
  show ((p :: ps).foldl (handlePacket env) initialHandshake).result = _ ∧
    ((p :: ps).foldl (handlePacket env) initialHandshake).written = _
  rw [List.foldl_cons,
    handlePacket_request_reject env initialHandshake p rfl (fun hc => h hc.1),
    raiseVerifyResult_none _ _ _ rfl,
    foldl_terminal env ps _ (Or.inr rfl)]
  exact ⟨rfl, rfl⟩

/-- C4 witness: a client challenge response as the very first packet is
rejected with nothing written. -/
theorem first_packet_not_request_rejected_witness :
    (run toyEnv [toyClientChallengeResponse, toyNonAuthPacket]).result =
        some VerifyResult.malformedData ∧
      (run toyEnv [toyClientChallengeResponse, toyNonAuthPacket]).written = [] :=
  first_packet_not_request_rejected toyEnv toyClientChallengeResponse [toyNonAuthPacket]
    (by decide)

/-- C5: after a well-formed Server Challenge Request, a second packet that
is not a Client Challenge Response (a resent request, or a non-auth
packet) makes the result `malformedData`, with exactly the one Server
Challenge Response ever written, whatever packets follow. -/
theorem second_packet_not_response_rejected (env : Env) (p1 p2 : Packet) (ps : List Packet)
    (h1t : p1.type = PacketType.serverChallenge)
    (h1p : (p1.payload.getD []).length = challengeSize)
    (h2 : p2.type ≠ PacketType.clientChallengeResponse) :
    (run env (p1 :: p2 :: ps)).result = some VerifyResult.malformedData ∧
      (run env (p1 :: p2 :: ps)).written =
        [serverChallengeResponsePacket env (p1.payload.getD [])] := by
  show ((p1 :: p2 :: ps).foldl (handlePacket env) initialHandshake).result = _ ∧
    ((p1 :: p2 :: ps).foldl (handlePacket env) initialHandshake).written = _
  rw [List.foldl_cons, List.foldl_cons,
    handlePacket_request_step env initialHandshake p1 rfl h1t h1p,
    handlePacket_response_reject env _ p2 (env.randomBytes challengeSize) rfl
      (fun hc => h2 hc.1),
    raiseVerifyResult_none _ _ _ rfl,
    foldl_terminal env ps _ (Or.inr rfl)]
  exact ⟨rfl, by simp [initialHandshake]⟩

/-- C5 witness: resending the server challenge request as the second
packet is rejected with exactly one written packet. -/
theorem second_packet_not_response_rejected_witness :
    (run toyEnv [toyServerChallengeRequest, toyServerChallengeRequest]).result =
        some VerifyResult.malformedData ∧
      (run toyEnv [toyServerChallengeRequest, toyServerChallengeRequest]).written =
        [serverChallengeResponsePacket toyEnv (List.replicate 64 1)] :=
  second_packet_not_response_rejected toyEnv toyServerChallengeRequest
    toyServerChallengeRequest [] (by decide) (by decide) (by decide)

/-- C6: in `awaitingClientResponse`, a structurally valid Client Challenge
Response whose signature does not verify against the expected remote
public key and the issued challenge finalizes `failedChallenge`, moves to
`Failed`, writes nothing further and fires the callback exactly once. -/
theorem invalid_client_response_failed_challenge (env : Env) (hs : Handshake) (p : Packet)
    (c : List Nat)
    (hstate : hs.state = HandshakeState.awaitingClientResponse c)
    (hres : hs.result = none)
    (ht : p.type = PacketType.clientChallengeResponse)
    (hp : (p.payload.getD []).length = signatureSize)
    (hv : env.verify env.remotePublicKey c (p.payload.getD []) = false) :
    handlePacket env hs p =
      { hs with
          state := HandshakeState.failed
          result := some VerifyResult.failedChallenge
          notifications := hs.notifications ++ [VerifyResult.failedChallenge] } := by
  rw [handlePacket_response_step env hs p c hstate ht hp, hv]
  rw [if_neg (by simp), raiseVerifyResult_none hs _ _ hres]

/-- C6 witness: a corrupted-signature client response fails the toy
handshake's challenge without a further write. -/
theorem invalid_client_response_failed_challenge_witness :
    handlePacket toyEnv toyAwaitingClientHandshake toyCorruptedClientResponse =
      { toyAwaitingClientHandshake with
          state := HandshakeState.failed
          result := some VerifyResult.failedChallenge
          notifications := toyAwaitingClientHandshake.notifications ++
            [VerifyResult.failedChallenge] } :=
  invalid_client_response_failed_challenge toyEnv toyAwaitingClientHandshake
    toyCorruptedClientResponse (List.replicate 64 5) rfl rfl (by decide) (by decide) (by decide)

/-- C7: the fresh local challenge embedded in the Server Challenge
Response is exactly the new draw of the random source, so whenever that
draw differs from the received challenge and from the all-zero value —
the secure-randomness assumption the spec places on the source — the
embedded challenge differs from the received one and is not all zero. -/
theorem fresh_challenge_distinct (env : Env) (hs : Handshake) (p : Packet)
    (hstate : hs.state = HandshakeState.awaitingServerChallenge)
    (ht : p.type = PacketType.serverChallenge)
    (hp : (p.payload.getD []).length = challengeSize)
    (hsig : (env.sign env.keyPair.privateKey (p.payload.getD [])).length = signatureSize)
    (hrand : (env.randomBytes challengeSize).length = challengeSize)
    (hr1 : env.randomBytes challengeSize ≠ p.payload.getD [])
    (hr0 : env.randomBytes challengeSize ≠ List.replicate challengeSize 0) :
    (handlePacket env hs p).written =
        hs.written ++ [serverChallengeResponsePacket env (p.payload.getD [])] ∧
      responseChallenge (serverChallengeResponsePacket env (p.payload.getD [])) =
        env.randomBytes challengeSize ∧
      responseChallenge (serverChallengeResponsePacket env (p.payload.getD [])) ≠
        p.payload.getD [] ∧
      responseChallenge (serverChallengeResponsePacket env (p.payload.getD [])) ≠
        List.replicate challengeSize 0 := by
  have hchal : responseChallenge (serverChallengeResponsePacket env (p.payload.getD [])) =
      env.randomBytes challengeSize := by
    unfold responseChallenge serverChallengeResponsePacket
    simp only [Option.getD_some]
    rw [List.append_assoc, List.drop_left' hsig, List.take_left' hrand]
  refine ⟨?_, hchal, hchal ▸ hr1, hchal ▸ hr0⟩
  rw [handlePacket_request_step env hs p hstate ht hp]

/-- C7 witness: the toy draw differs from the received challenge and from
zero, and is what the toy response embeds. -/
theorem fresh_challenge_distinct_witness :
    (handlePacket toyEnv initialHandshake toyServerChallengeRequest).written =
        initialHandshake.written ++
          [serverChallengeResponsePacket toyEnv (toyServerChallengeRequest.payload.getD [])] ∧
      responseChallenge
          (serverChallengeResponsePacket toyEnv (toyServerChallengeRequest.payload.getD [])) =
        toyEnv.randomBytes challengeSize ∧
      responseChallenge
          (serverChallengeResponsePacket toyEnv (toyServerChallengeRequest.payload.getD [])) ≠
        toyServerChallengeRequest.payload.getD [] ∧
      responseChallenge
          (serverChallengeResponsePacket toyEnv (toyServerChallengeRequest.payload.getD [])) ≠
        List.replicate challengeSize 0 :=
  fresh_challenge_distinct toyEnv initialHandshake toyServerChallengeRequest
    rfl (by decide) (by decide) (by decide) (by decide) (by decide) (by decide)

/-- C8: `handlePacket` is a total function — every packet, in every state,
including packets of unknown type and packets lacking a payload field,
yields a defined successor handshake — and the only way a failure ever
surfaces is the one-shot result: either the callback log and stored
result are untouched, or the result was unset and exactly one
notification carrying the newly stored result is appended. -/
theorem handlePacket_no_exception (env : Env) (hs : Handshake) (p : Packet) :
    ((handlePacket env hs p).notifications = hs.notifications ∧
        (handlePacket env hs p).result = hs.result) ∨
      (hs.result = none ∧ ∃ r, (handlePacket env hs p).result = some r ∧
        (handlePacket env hs p).notifications = hs.notifications ++ [r]) := by
  cases hstate : hs.state with
  | awaitingServerChallenge =>
      by_cases hc : p.type = PacketType.serverChallenge ∧
        (p.payload.getD []).length = challengeSize
      · rw [handlePacket_request_step env hs p hstate hc.1 hc.2]
        exact Or.inl ⟨rfl, rfl⟩
      · rw [handlePacket_request_reject env hs p hstate hc]
        cases hres : hs.result with
        | some r => exact Or.inl ⟨by simp [raiseVerifyResult, hres], by simp [raiseVerifyResult, hres, hres]⟩
        | none => exact Or.inr ⟨rfl, VerifyResult.malformedData,
            by simp [raiseVerifyResult, hres], by simp [raiseVerifyResult, hres]⟩
  | awaitingClientResponse c =>
      by_cases hc : p.type = PacketType.clientChallengeResponse ∧
        (p.payload.getD []).length = signatureSize
      · rw [handlePacket_response_step env hs p c hstate hc.1 hc.2]
        cases hres : hs.result with
        | some r =>
            refine Or.inl ?_
            split <;> simp [raiseVerifyResult, hres]
        | none =>
            refine Or.inr ⟨rfl, ?_⟩
            split
            · exact ⟨VerifyResult.success,
                by simp [raiseVerifyResult, hres], by simp [raiseVerifyResult, hres]⟩
            · exact ⟨VerifyResult.failedChallenge,
                by simp [raiseVerifyResult, hres], by simp [raiseVerifyResult, hres]⟩
      · rw [handlePacket_response_reject env hs p c hstate hc]
        cases hres : hs.result with
        | some r => exact Or.inl ⟨by simp [raiseVerifyResult, hres], by simp [raiseVerifyResult, hres]⟩
        | none => exact Or.inr ⟨rfl, VerifyResult.malformedData,
            by simp [raiseVerifyResult, hres], by simp [raiseVerifyResult, hres]⟩
  | verified => rw [handlePacket_terminal env hs p (Or.inl hstate)]; exact Or.inl ⟨rfl, rfl⟩
  | failed => rw [handlePacket_terminal env hs p (Or.inr hstate)]; exact Or.inl ⟨rfl, rfl⟩

/-! ### Codec lemmas -/

theorem readUint32LE_writeUint32LE (v : Nat) (h : v < 4294967296) :
    readUint32LE (v % 256) (v / 256 % 256) (v / 65536 % 256) (v / 16777216 % 256) = v := by
  unfold readUint32LE
  omega

theorem parseUint64_writeUint64LE (v : Nat × Nat) (rest : List Nat)
    (h1 : v.1 < 4294967296) (h2 : v.2 < 4294967296) :
    parseUint64 (writeUint64LE v ++ rest) = some (v, rest) := by
  obtain ⟨lo, hi⟩ := v
  simp only [writeUint64LE, writeUint32LE, List.cons_append, List.nil_append, parseUint64,
    Option.some.injEq, Prod.mk.injEq]
  exact ⟨⟨readUint32LE_writeUint32LE lo h1, readUint32LE_writeUint32LE hi h2⟩, trivial⟩

theorem parseBuffer_exact (bs : List Nat) (n : Nat) (h : bs.length = n) :
    parseBuffer n bs = some (bs, []) := by
  unfold parseBuffer
  rw [if_pos (le_of_eq h.symm), ← h, List.take_length, List.drop_length]

/-- C9: the hashLock codec registered by `registerCodecs` is lossless: for
every transaction whose `mosaic` and `duration` are uint64 values (32-bit
word pairs) and whose hash is exactly `hash256` bytes, deserializing the
serialized byte stream — reading `mosaic`, then `duration`, then the hash
— returns the original transaction with the stream fully consumed. -/
theorem hashLock_serialize_deserialize (t : HashLockTransaction)
    (hm1 : t.mosaic.1 < 4294967296) (hm2 : t.mosaic.2 < 4294967296)
    (hd1 : t.duration.1 < 4294967296) (hd2 : t.duration.2 < 4294967296)
    (hh : t.hash.length = sizes_hash256) :
    hashLockDeserialize (hashLockSerialize t) = some (t, []) := by
  unfold hashLockSerialize hashLockDeserialize
  rw [List.append_assoc, parseUint64_writeUint64LE t.mosaic _ hm1 hm2]
  simp only [Option.bind_eq_bind, Option.some_bind]
  rw [parseUint64_writeUint64LE t.duration _ hd1 hd2]
  simp only [Option.some_bind]
  rw [parseBuffer_exact t.hash sizes_hash256 hh]
  rfl

/-- C9 witness: a concrete hash-lock transaction survives the round trip. -/
theorem hashLock_serialize_deserialize_witness :
    hashLockDeserialize (hashLockSerialize
        { mosaic := (107751154, 2461240128)
          duration := (1456169722, 3535487810)
          hash := List.replicate 32 171 }) =
      some ({ mosaic := (107751154, 2461240128)
              duration := (1456169722, 3535487810)
              hash := List.replicate 32 171 }, []) :=
  hashLock_serialize_deserialize
    { mosaic := (107751154, 2461240128)
      duration := (1456169722, 3535487810)
      hash := List.replicate 32 171 }
    (by decide) (by decide) (by decide) (by decide) (by decide)

/-- C10: `hashLocksByAccounts` filters `hashLockInfos` with a single `$in`
condition over the account ids converted to buffers in their original
order, on the field `lock.account` exactly when the account id type is
`publicKey` and on `lock.accountAddress` otherwise. -/
theorem hashLocksByAccounts_filters (type : AccountType) (accountIds : List (List Nat))
    (id : String) (pageSize : Nat) :
    ((hashLocksByAccounts type accountIds id pageSize).andConditions =
        [{ fieldName :=
             if type = AccountType.publicKey then "lock.account" else "lock.accountAddress"
           values := accountIds.map bufferFrom }]) ∧
      (((hashLocksByAccounts type accountIds id pageSize).andConditions.map
            MongoInCondition.fieldName = ["lock.account"]) ↔
        type = AccountType.publicKey) := by
  cases type <;> simp [hashLocksByAccounts]
